import Mathlib

/-!
Verification of the ReAct agent strategy (`src/strategies/ReAct.py`).

The development shallowly embeds the two algorithmically relevant parts of
the file:

* `handle_invoke_action` — the Action Dispatcher (`_handle_invoke_action`,
  lines 467-568): tool resolution over the local and MCP registries,
  argument coercion of string inputs, MCP result normalization, local
  response folding, and the `tool invoke error` recovery boundary.
* `run_invoke` / `do_round` / `loop_go` — the Reasoning Loop Controller
  (`_invoke`, lines 101-405): the bounded while loop, last-round tool
  suppression, terminal-unit detection and final-answer selection.

Dynamically typed Python values that cross these boundaries (tool
arguments, MCP content items, observations) are embedded as the `Json`
inductive; Python strings are `Json.str`, dicts are `Json.obj` with
insertion-ordered association lists. Exceptions are embedded as the
`PyError` inductive threaded through `Except`. External collaborators
(the model stream parser, the MCP client, the local tool invoker) are
parameters of the embedded functions, exactly as they are external
imports of the source file.
-/

namespace ReActSpec

/-- Embedded Python/JSON value. Numbers are modelled as integers (all
numeric values appearing in the verified code paths are integral). -/
inductive Json where
  | null : Json
  | bool : Bool → Json
  | num : Int → Json
  | str : String → Json
  | arr : List Json → Json
  | obj : List (String × Json) → Json

instance : Inhabited Json := ⟨Json.null⟩

/-- Hex digit for low control-character escapes. -/
def hexDigit (n : Nat) : Char :=
  if n < 10 then Char.ofNat (48 + n) else Char.ofNat (87 + n)

/-- Escape one character the way `json.dumps` (with `ensure_ascii=False`)
renders characters inside a string literal. -/
def escape_json_char (c : Char) : String :=
  if c = '"' then "\\\""
  else if c = '\\' then "\\\\"
  else if c = '\n' then "\\n"
  else if c = '\t' then "\\t"
  else if c = '\r' then "\\r"
  else if c = '\x08' then "\\b"
  else if c = '\x0c' then "\\f"
  else if c.toNat < 32 then
    "\\u00" ++ String.singleton (hexDigit (c.toNat / 16)) ++ String.singleton (hexDigit (c.toNat % 16))
  else String.singleton c

/-- Render a string as a JSON string literal. -/
def json_dumps_string (s : String) : String :=
  "\"" ++ String.join (s.data.map escape_json_char) ++ "\""

mutual

/-- Embedding of Python `json.dumps` with default separators
(`", "` and `": "`); non-ASCII characters are left unescaped
(`ensure_ascii=False`, as used on the MCP normalization paths). -/
def json_dumps : Json → String
  | .null => "null"
  | .bool b => if b then "true" else "false"
  | .num n => toString n
  | .str s => json_dumps_string s
  | .arr xs => "[" ++ json_dumps_items xs ++ "]"
  | .obj fs => "\x7b" ++ json_dumps_fields fs ++ "\x7d"

/-- Comma-separated rendering of array elements. -/
def json_dumps_items : List Json → String
  | [] => ""
  | [x] => json_dumps x
  | x :: y :: xs => json_dumps x ++ ", " ++ json_dumps_items (y :: xs)

/-- Comma-separated rendering of object fields. -/
def json_dumps_fields : List (String × Json) → String
  | [] => ""
  | [(k, v)] => json_dumps_string k ++ ": " ++ json_dumps v
  | (k, v) :: f :: fs =>
      json_dumps_string k ++ ": " ++ json_dumps v ++ ", " ++ json_dumps_fields (f :: fs)

end

/-- Skip JSON whitespace. -/
def skip_ws : List Char → List Char
  | c :: cs => if c = ' ' ∨ c = '\t' ∨ c = '\n' ∨ c = '\r' then skip_ws cs else c :: cs
  | [] => []

/-- Value of a hex digit character. -/
def hex_val (c : Char) : Option Nat :=
  if '0' ≤ c ∧ c ≤ '9' then some (c.toNat - 48)
  else if 'a' ≤ c ∧ c ≤ 'f' then some (c.toNat - 87)
  else if 'A' ≤ c ∧ c ≤ 'F' then some (c.toNat - 55)
  else none

/-- Parse the body of a JSON string literal (after the opening quote),
returning the decoded string and the remaining characters. Mirrors the
strictness of Python json: raw control characters and unknown escape
sequences are rejected. -/
def parse_string_chars : List Char → Option (String × List Char)
  | [] => none
  | '"' :: rest => some ("", rest)
  | '\\' :: 'u' :: a :: b :: c :: d :: rest => do
      let va ← hex_val a
      let vb ← hex_val b
      let vc ← hex_val c
      let vd ← hex_val d
      let ch := Char.ofNat (((va * 16 + vb) * 16 + vc) * 16 + vd)
      let (s, r) ← parse_string_chars rest
      pure (String.singleton ch ++ s, r)
  | '\\' :: e :: rest => do
      let ch ←
        if e = '"' then some '"'
        else if e = '\\' then some '\\'
        else if e = '/' then some '/'
        else if e = 'n' then some '\n'
        else if e = 't' then some '\t'
        else if e = 'r' then some '\r'
        else if e = 'b' then some '\x08'
        else if e = 'f' then some '\x0c'
        else none
      let (s, r) ← parse_string_chars rest
      pure (String.singleton ch ++ s, r)
  | c :: rest =>
      if c.toNat < 32 then none
      else (parse_string_chars rest).map (fun (s, r) => (String.singleton c ++ s, r))

/-- Numeric value of a digit list. -/
def digits_to_nat (ds : List Char) : Nat :=
  ds.foldl (fun acc c => acc * 10 + (c.toNat - 48)) 0

/-- Parse an integer JSON number (fractional and exponent forms are not
modelled; see `Json`). -/
def parse_number (cs : List Char) : Option (Json × List Char) :=
  let core : List Char → Option (Int × List Char) := fun cs0 =>
    let ds := cs0.takeWhile Char.isDigit
    let rest := cs0.dropWhile Char.isDigit
    if ds.isEmpty then none
    else
      match rest with
      | '.' :: _ => none
      | 'e' :: _ => none
      | 'E' :: _ => none
      | _ => some ((digits_to_nat ds : Int), rest)
  match cs with
  | '-' :: rest => (core rest).map (fun (n, r) => (Json.num (-n), r))
  | _ => (core cs).map (fun (n, r) => (Json.num n, r))

mutual

/-- Fueled recursive-descent JSON value parser. -/
def parse_value : Nat → List Char → Option (Json × List Char)
  | 0, _ => none
  | Nat.succ fuel, cs =>
      match skip_ws cs with
      | 'n' :: 'u' :: 'l' :: 'l' :: rest => some (Json.null, rest)
      | 't' :: 'r' :: 'u' :: 'e' :: rest => some (Json.bool true, rest)
      | 'f' :: 'a' :: 'l' :: 's' :: 'e' :: rest => some (Json.bool false, rest)
      | '"' :: rest => (parse_string_chars rest).map (fun (s, r) => (Json.str s, r))
      | '[' :: rest =>
          (match skip_ws rest with
           | ']' :: r => some (Json.arr [], r)
           | cs2 => parse_array_items fuel cs2 [])
      | '\x7b' :: rest =>
          (match skip_ws rest with
           | '\x7d' :: r => some (Json.obj [], r)
           | cs2 => parse_object_items fuel cs2 [])
      | cs1 => parse_number cs1

/-- Parse the remaining comma-separated items of a JSON array. -/
def parse_array_items : Nat → List Char → List Json → Option (Json × List Char)
  | 0, _, _ => none
  | Nat.succ fuel, cs, acc =>
      match parse_value fuel cs with
      | none => none
      | some (v, rest) =>
          match skip_ws rest with
          | ',' :: r2 => parse_array_items fuel (skip_ws r2) (acc ++ [v])
          | ']' :: r2 => some (Json.arr (acc ++ [v]), r2)
          | _ => none

/-- Parse the remaining comma-separated fields of a JSON object. -/
def parse_object_items : Nat → List Char → List (String × Json) → Option (Json × List Char)
  | 0, _, _ => none
  | Nat.succ fuel, cs, acc =>
      match skip_ws cs with
      | '"' :: rest =>
          match parse_string_chars rest with
          | none => none
          | some (k, r1) =>
              match skip_ws r1 with
              | ':' :: r2 =>
                  (match parse_value fuel (skip_ws r2) with
                   | none => none
                   | some (v, r3) =>
                       match skip_ws r3 with
                       | ',' :: r4 => parse_object_items fuel r4 (acc ++ [(k, v)])
                       | '\x7d' :: r4 => some (Json.obj (acc ++ [(k, v)]), r4)
                       | _ => none)
              | _ => none
      | _ => none

end

/-- Embedding of Python `json.loads` restricted to a decode-success or
decode-failure verdict: `some v` when the whole input parses as one JSON
value, `none` when Python would raise `json.JSONDecodeError`. -/
def json_loads (s : String) : Option Json :=
  match parse_value (2 * s.length + 2) s.data with
  | some (v, rest) => if (skip_ws rest).isEmpty then some v else none
  | none => none

/-! ## Python exceptions and dynamic attribute/item access -/

/-- Embedded Python exception kinds observable in `_handle_invoke_action`. -/
inductive PyError where
  | valueError (msg : String)
  | attributeError (msg : String)
  | typeError (msg : String)
  | keyError (key : String)
  | other (msg : String)
deriving Repr, DecidableEq

/-- Embedding of Python `str(e)` as used by the f-string
`f"tool invoke error: \x7be!s\x7d"`; `str` of a `KeyError` renders the
missing key in single quotes. -/
def err_str : PyError → String
  | .valueError m => m
  | .attributeError m => m
  | .typeError m => m
  | .keyError k => "\x27" ++ k ++ "\x27"
  | .other m => m

/-- Embedding of Python subscription `item[key]`: `KeyError` when the key
is missing, `TypeError` when the value is not a mapping. -/
def json_get_item (j : Json) (key : String) : Except PyError Json :=
  match j with
  | .obj fields =>
      match fields.lookup key with
      | some v => Except.ok v
      | none => Except.error (PyError.keyError key)
  | _ => Except.error (PyError.typeError "object is not subscriptable")

/-- Embedding of the Python dict merge `\x7b**a, **b\x7d` (line 531):
keys of `a` first in order, values overridden by `b` where present, then
the keys only in `b` in their order; `TypeError` when `b` is not a
mapping. -/
def py_dict_merge (a : List (String × Json)) (b : Json) :
    Except PyError (List (String × Json)) :=
  match b with
  | .obj fields =>
      Except.ok
        ((a.map (fun kv => (kv.fst, (fields.lookup kv.fst).getD kv.snd))) ++
          fields.filter (fun kv => (a.lookup kv.fst).isNone))
  | _ => Except.error (PyError.typeError "argument after ** must be a mapping")

/-! ## Tool entities (from `dify_plugin.entities.tool`, as used by the source) -/

/-- Form of a declared tool parameter (`ToolParameter.ToolParameterForm`). -/
inductive ToolParameterForm where
  | schema
  | form
  | llm
deriving Repr, DecidableEq, BEq

/-- A declared parameter of a local tool (the fields read by the source). -/
structure ToolParam where
  name : String
  form : ToolParameterForm
deriving Repr, DecidableEq

/-- A local tool registry entry (`ToolEntity`, restricted to the fields the
dispatcher reads: identity name/provider, declared parameters, persisted
runtime parameters). -/
structure ToolEntity where
  name : String
  provider : String
  parameters : List ToolParam
  runtime_parameters : List (String × Json)

/-- A parsed action (`AgentScratchpadUnit.Action`): name plus an input that
is either raw text (`Json.str`) or an already-structured value. -/
structure AgentAction where
  action_name : String
  action_input : Json

/-- One typed response message from a local tool invocation
(`ToolInvokeMessage`), restricted to the payload each branch of the fold
at lines 538-564 reads; `other` carries the `repr` of the message. -/
inductive ToolInvokeResponse where
  | text (t : String)
  | link (t : String)
  | image
  | imageLink
  | json (j : Json)
  | other (message_repr : String)

/-! ## Action Dispatcher (`_handle_invoke_action`, lines 467-568) -/

/-- Embedding of the argument-coercion block at lines 495-506: a string
input is JSON-decoded; on decode failure the LLM-facing parameters of the
resolved local tool instance drive the single-parameter heuristic. When no
local tool instance was resolved, reading `tool_instance.parameters`
raises `AttributeError` (uncaught, since this block is outside the
`try`). More than one LLM-facing parameter raises `ValueError`. -/
def decode_tool_call_args (tool_instance : Option ToolEntity) (tool_call_args : Json) :
    Except PyError Json :=
  match tool_call_args with
  | .str s =>
      match json_loads s with
      | some decoded => Except.ok decoded
      | none =>
          match tool_instance with
          | none =>
              Except.error (PyError.attributeError
                "\x27NoneType\x27 object has no attribute \x27parameters\x27")
          | some ti =>
              let params :=
                (ti.parameters.filter
                  (fun param => param.form == ToolParameterForm.llm)).map ToolParam.name
              if params.length > 1 then
                Except.error (PyError.valueError "tool call args is not a valid json string")
              else
                match params with
                | [p] => Except.ok (Json.obj [(p, Json.str s)])
                | _ => Except.ok (Json.obj [])
  | j => Except.ok j

/-- Embedding of the MCP result normalization at lines 517-528: a
single-item list renders `text` items verbatim, `image`/`video` items as
the JSON of the whole item, `resource` items as the JSON of the nested
resource payload, anything else as the JSON of the whole item; any other
list length renders the JSON of the whole list. Item subscriptions may
raise (propagated to the surrounding `try`). -/
def normalize_mcp_content (content : List Json) : Except PyError Json :=
  match content with
  | [item] => do
      let ty ← json_get_item item "type"
      match ty with
      | .str t =>
          if t = "text" then
            json_get_item item "text"
          else if t = "image" ∨ t = "video" then
            pure (Json.str (json_dumps item))
          else if t = "resource" then do
            let r ← json_get_item item "resource"
            pure (Json.str (json_dumps r))
          else
            pure (Json.str (json_dumps item))
      | _ => pure (Json.str (json_dumps item))
  | _ => pure (Json.str (json_dumps (Json.arr content)))

/-- Embedding of the fold over local tool responses at lines 538-564. -/
def fold_tool_responses (responses : List ToolInvokeResponse) : String :=
  responses.foldl
    (fun result response =>
      result ++
        match response with
        | .text t => t
        | .link t => "result link: " ++ t ++ "." ++ " please tell user to check it."
        | .image =>
            "image has been created and sent to user already, " ++
              "you do not need to create it, just tell the user to check it now."
        | .imageLink =>
            "image has been created and sent to user already, " ++
              "you do not need to create it, just tell the user to check it now."
        | .json j => "tool response: " ++ json_dumps j ++ "."
        | .other m => "tool response: " ++ m ++ ".")
    ""

/-- Embedding of `_handle_invoke_action` (lines 467-568). The local and
MCP registries are the `Mapping` arguments of the source, embedded as
association lists keyed by tool name; the external collaborators
(`mcp_clients.execute_tool` and `self.session.tool.invoke` followed by
draining its response stream) are the function parameters `mcp_execute`
and `local_invoke`. The result is `(observation, tool_invoke_parameters)`
on normal return, or the uncaught exception escaping the coercion block. -/
def handle_invoke_action
    (action : AgentAction)
    (tool_instances : List (String × ToolEntity))
    (mcp_tool_instances : List (String × Json))
    (mcp_execute : String → Json → Except PyError (List Json))
    (local_invoke : ToolEntity → List (String × Json) → Except PyError (List ToolInvokeResponse)) :
    Except PyError (Json × Json) :=
  let tool_call_name := action.action_name
  let tool_call_args := action.action_input
  let tool_instance := tool_instances.lookup tool_call_name
  let mcp_tool_instance := mcp_tool_instances.lookup tool_call_name
  if tool_instance.isNone && mcp_tool_instance.isNone then
    Except.ok (Json.str ("there is not a tool named " ++ tool_call_name), tool_call_args)
  else
    match decode_tool_call_args tool_instance tool_call_args with
    | Except.error e => Except.error e
    | Except.ok tool_call_args =>
        match mcp_tool_instance with
        | some _ =>
            -- invoke MCP tool; `tool_invoke_parameters` is set before execution
            let tool_invoke_parameters := tool_call_args
            match (do
                let content ← mcp_execute tool_call_name tool_invoke_parameters
                normalize_mcp_content content : Except PyError Json) with
            | Except.ok result => Except.ok (result, tool_invoke_parameters)
            | Except.error e =>
                Except.ok (Json.str ("tool invoke error: " ++ err_str e), tool_invoke_parameters)
        | none =>
            match tool_instance with
            | none =>
                -- unreachable under the guard above; mirrors the AttributeError
                -- that `tool_instance.runtime_parameters` would raise inside the try
                Except.ok
                  (Json.str ("tool invoke error: " ++
                    err_str (PyError.attributeError
                      "\x27NoneType\x27 object has no attribute \x27runtime_parameters\x27")),
                   Json.obj [])
            | some ti =>
                match py_dict_merge ti.runtime_parameters tool_call_args with
                | Except.error e =>
                    -- merge failed inside the try; `tool_invoke_parameters` is still \x7b\x7d
                    Except.ok (Json.str ("tool invoke error: " ++ err_str e), Json.obj [])
                | Except.ok merged =>
                    match local_invoke ti merged with
                    | Except.error e =>
                        Except.ok
                          (Json.str ("tool invoke error: " ++ err_str e), Json.obj merged)
                    | Except.ok responses =>
                        Except.ok (Json.str (fold_tool_responses responses), Json.obj merged)

/-! ## Python rendering of embedded values (`str`/`repr`) -/

mutual

/-- Embedded Python `repr` of a parsed-JSON value (strings are
single-quoted; escaping subtleties are not modelled since no verified
path renders control characters this way). -/
def py_repr : Json → String
  | .null => "None"
  | .bool b => if b then "True" else "False"
  | .num n => toString n
  | .str s => "\x27" ++ s ++ "\x27"
  | .arr xs => "[" ++ py_repr_items xs ++ "]"
  | .obj fs => "\x7b" ++ py_repr_fields fs ++ "\x7d"

/-- Comma-separated `repr` of list items. -/
def py_repr_items : List Json → String
  | [] => ""
  | [x] => py_repr x
  | x :: y :: xs => py_repr x ++ ", " ++ py_repr_items (y :: xs)

/-- Comma-separated `repr` of dict entries. -/
def py_repr_fields : List (String × Json) → String
  | [] => ""
  | [(k, v)] => "\x27" ++ k ++ "\x27: " ++ py_repr v
  | (k, v) :: f :: fs => "\x27" ++ k ++ "\x27: " ++ py_repr v ++ ", " ++ py_repr_fields (f :: fs)

end

/-- Embedded Python `str` (as used by an f-string) of a parsed-JSON
value: strings render verbatim, containers via `repr`. -/
def py_str : Json → String
  | .str s => s
  | j => py_repr j

/-- ASCII lowercasing of one character, as Python `str.lower` acts on the
ASCII action names appearing here. -/
def py_lower_char (c : Char) : Char :=
  if 'A' ≤ c ∧ c ≤ 'Z' then Char.ofNat (c.toNat + 32) else c

/-- Embedding of Python `str.lower`. -/
def py_lower (s : String) : String := String.mk (s.data.map py_lower_char)

/-- Python whitespace as recognized by `str.strip`. -/
def py_isspace (c : Char) : Bool :=
  c = ' ' ∨ c = '\t' ∨ c = '\n' ∨ c = '\r' ∨ c = '\x0b' ∨ c = '\x0c'

/-- Embedding of Python `str.strip()`. -/
def py_strip (s : String) : String :=
  String.mk (((s.data.dropWhile py_isspace).reverse.dropWhile py_isspace).reverse)

/-! ## Reasoning Loop Controller (`_invoke`, lines 101-405) -/

/-- The validated strategy parameters (`ReActParams`). `maximum_iterations`
is a plain pydantic `int` with default 3 and no positivity constraint, so
any integer (including non-positive values) passes validation. -/
structure ReActParams where
  query : String
  instruction : String
  maximum_iterations : Int := 3

/-- A tool descriptor of the prompt catalogue (`PromptMessageTool`),
restricted to its identifying fields. -/
structure PromptMessageTool where
  name : String
  description : String
deriving Repr, DecidableEq

/-- LLM usage figures as read by the controller (`LLMUsage`, restricted to
the fields the emitted metadata reads; prices are modelled as integers). -/
structure LLMUsage where
  total_price : Int
  currency : String
  total_tokens : Int
deriving Repr, DecidableEq

/-- Modelled from the spec: the SDK accumulator `increase_usage`
(`AgentStrategy.increase_usage`, imported from `dify_plugin`, not part of
this repository). Spec section 4.2 step 5: merge returned usage into the
running accumulator, never null-propagate. -/
def increase_usage (acc : Option LLMUsage) (u : LLMUsage) : Option LLMUsage :=
  match acc with
  | none => some u
  | some a =>
      some { total_price := a.total_price + u.total_price,
             currency := u.currency,
             total_tokens := a.total_tokens + u.total_tokens }

/-- One classified item of the parsed model stream
(`CotAgentOutputParser.handle_react_stream_output` is an external import;
its output sequence per round is an input of the loop embedding). -/
inductive ReactChunk where
  | text (s : String)
  | action (a : AgentAction)

/-- The parsed model output of one round: the classified chunk sequence
plus the usage side channel (`usage_dict`). -/
structure RoundModelOutput where
  chunks : List ReactChunk
  usage : Option LLMUsage

/-- One scratchpad unit (`AgentScratchpadUnit`, restricted to the fields
the controller writes). -/
structure AgentScratchpadUnit where
  agent_response : String
  thought : String
  action_str : String
  observation : String
  action : Option AgentAction

/-- JSON form of `chunk.model_dump()` for an action chunk. -/
def action_to_json (a : AgentAction) : Json :=
  Json.obj [("action_name", Json.str a.action_name), ("action_input", a.action_input)]

/-- Embedding of the chunk-consumption loop at lines 233-251: text chunks
accumulate into `thought` and `agent_response`; each action chunk appends
its JSON to `agent_response` and overwrites `action_str`/`action`; finally
the thought is stripped when non-empty, else replaced by the fixed
fallback string. -/
def consume_react_chunks (chunks : List ReactChunk) : AgentScratchpadUnit :=
  let s :=
    chunks.foldl
      (fun (sp : AgentScratchpadUnit) chunk =>
        match chunk with
        | .action a =>
            { sp with
              agent_response := sp.agent_response ++ json_dumps (action_to_json a),
              action_str := json_dumps (action_to_json a),
              action := some a }
        | .text t =>
            { sp with
              agent_response := sp.agent_response ++ t,
              thought := sp.thought ++ t })
      { agent_response := "", thought := "", action_str := "", observation := "",
        action := none }
  { s with
    thought := if s.thought ≠ "" then py_strip s.thought else "I am thinking about how to help you" }

/-- Embedding of the final-answer extraction for a terminal action
(lines 291-299): dict inputs are JSON-dumped, string inputs pass through,
anything else is string-rendered. -/
def final_answer_of_input : Json → String
  | .obj fs => json_dumps (Json.obj fs)
  | .str s => s
  | j => py_str j

/-- Record of one executed round, as observed through the loop state: the
round number, the tool catalogue in force when the prompt was assembled,
the finished scratchpad unit, and whether a tool call was dispatched. -/
structure RoundRecord where
  iteration : Int
  tools_for_prompt : List PromptMessageTool
  unit : AgentScratchpadUnit
  dispatched : Bool

/-- The mutable state of `_invoke` across rounds. -/
structure LoopState where
  iteration_step : Int
  run_agent_state : Bool
  final_answer : String
  prompt_messages_tools : List PromptMessageTool
  llm_usage : Option LLMUsage
  trace : List RoundRecord

/-- Embedding of one iteration of the while loop body (lines 167-384).
`model_oracle` supplies the classified model stream of each round (the
model plus the external stream parser); `dispatch_oracle` supplies the
observation returned by `_handle_invoke_action` for the dispatched action
(the dispatcher itself is verified separately as `handle_invoke_action`).
On the round equal to `max_iteration_steps` the tool catalogue is cleared
before prompt assembly. The scratchpad unit is appended to the trace; when
a non-terminal action was parsed the observation is stored on the unit,
`run_agent_state` is set, and no final answer is assigned. -/
def do_round
    (model_oracle : Int → RoundModelOutput)
    (dispatch_oracle : Int → AgentAction → String)
    (max_iteration_steps : Int)
    (st : LoopState) : LoopState :=
  let tools :=
    if st.iteration_step = max_iteration_steps then [] else st.prompt_messages_tools
  let out := model_oracle st.iteration_step
  let scratchpad := consume_react_chunks out.chunks
  let llm_usage :=
    match out.usage with
    | some u => increase_usage st.llm_usage u
    | none => st.llm_usage
  let step : Bool × String × AgentScratchpadUnit :=
    match scratchpad.action with
    | none => (false, scratchpad.thought, scratchpad)
    | some a =>
        if py_lower a.action_name = "final answer" then
          (false, final_answer_of_input a.action_input, scratchpad)
        else
          let observation := dispatch_oracle st.iteration_step a
          (true, st.final_answer,
            { scratchpad with observation := observation, agent_response := observation })
  { iteration_step := st.iteration_step + 1,
    run_agent_state := step.1,
    final_answer := step.2.1,
    prompt_messages_tools := tools,
    llm_usage := llm_usage,
    trace := st.trace ++
      [{ iteration := st.iteration_step, tools_for_prompt := tools,
         unit := step.2.2, dispatched := step.1 }] }

/-- Fueled embedding of the while loop
`while run_agent_state and iteration_step <= max_iteration_steps`
(line 167). The fuel supplied by `run_invoke` equals the iteration budget,
which is exact: `iteration_step` starts at 1 and increases by one per
round, so the guard fails no later than the fuel runs out. -/
def loop_go
    (model_oracle : Int → RoundModelOutput)
    (dispatch_oracle : Int → AgentAction → String)
    (max_iteration_steps : Int) : Nat → LoopState → LoopState
  | 0, st => st
  | Nat.succ fuel, st =>
      if st.run_agent_state ∧ st.iteration_step ≤ max_iteration_steps then
        loop_go model_oracle dispatch_oracle max_iteration_steps fuel
          (do_round model_oracle dispatch_oracle max_iteration_steps st)
      else st

/-- The messages emitted after the loop (lines 390-405): the final answer
text message and the execution-metadata JSON, read from the usage
accumulator with zero-valued defaults when no usage was recorded. -/
def usage_metadata (u : Option LLMUsage) : Int × String × Int :=
  match u with
  | some usage => (usage.total_price, usage.currency, usage.total_tokens)
  | none => (0, "", 0)

instance : Inhabited AgentScratchpadUnit :=
  ⟨{ agent_response := "", thought := "", action_str := "", observation := "", action := none }⟩

instance : Inhabited RoundRecord :=
  ⟨{ iteration := 0, tools_for_prompt := [], unit := default, dispatched := false }⟩

/-- The observable outcome of one `_invoke` run: the final loop state, the
emitted text message, and the emitted execution metadata. -/
structure InvokeOutput where
  state : LoopState
  text_message : String
  execution_metadata : Int × String × Int

/-- Embedding of `_invoke` restricted to its loop and final emissions:
state is initialized as at lines 114-119 (iteration 1, loop enabled,
empty final answer, no usage), the tool catalogue `tools0` is the
assembled local-plus-MCP prompt tool list (lines 163-165), the loop runs,
and the final messages are emitted. -/
def run_invoke
    (params : ReActParams)
    (model_oracle : Int → RoundModelOutput)
    (dispatch_oracle : Int → AgentAction → String)
    (tools0 : List PromptMessageTool) : InvokeOutput :=
  let st0 : LoopState :=
    { iteration_step := 1, run_agent_state := true, final_answer := "",
      prompt_messages_tools := tools0, llm_usage := none, trace := [] }
  let st :=
    loop_go model_oracle dispatch_oracle params.maximum_iterations
      params.maximum_iterations.toNat st0
  { state := st,
    text_message := st.final_answer,
    execution_metadata := usage_metadata st.llm_usage }

/-! ## Claims about the Action Dispatcher -/

/-- Reduction of a monadic bind on a successful `Except` value. -/
theorem except_bind_ok {α β ε : Type} (a : α) (f : α → Except ε β) :
    (Except.ok a >>= f) = f a := rfl

/-- Reduction of a monadic bind on a failed `Except` value. -/
theorem except_bind_error {α β ε : Type} (e : ε) (f : α → Except ε β) :
    ((Except.error e : Except ε α) >>= f) = (Except.error e : Except ε β) := rfl

/-- Reduction of a monadic pure to an `Except` constructor. -/
theorem except_pure {α ε : Type} (a : α) : (pure a : Except ε α) = Except.ok a := rfl

/-- C6: for every action whose name matches neither a local tool nor a
remote tool, dispatch does not raise and returns the observation string
exactly equal to `there is not a tool named <name>`, together with the
raw action input. -/
theorem C6_tool_not_found
    (name : String) (args : Json)
    (tool_instances : List (String × ToolEntity))
    (mcp_tool_instances : List (String × Json))
    (mcp_execute : String → Json → Except PyError (List Json))
    (local_invoke : ToolEntity → List (String × Json) → Except PyError (List ToolInvokeResponse))
    (h_local : tool_instances.lookup name = none)
    (h_mcp : mcp_tool_instances.lookup name = none) :
    handle_invoke_action ⟨name, args⟩ tool_instances mcp_tool_instances
        mcp_execute local_invoke =
      Except.ok (Json.str ("there is not a tool named " ++ name), args) := by
  simp [handle_invoke_action, h_local, h_mcp]

/-- Witness for C6 at the example of the claim: action name
`unknown_tool` against empty registries. -/
theorem C6_witness :
    handle_invoke_action ⟨"unknown_tool", Json.str "x"⟩ ([] : List (String × ToolEntity)) []
        (fun _ _ => Except.ok []) (fun _ _ => Except.ok []) =
      Except.ok (Json.str "there is not a tool named unknown_tool", Json.str "x") :=
  C6_tool_not_found "unknown_tool" (Json.str "x") [] []
    (fun _ _ => Except.ok []) (fun _ _ => Except.ok []) rfl rfl

/-- C9: when an action name matches only a remote-protocol tool and its
input is a string that fails to decode as JSON, the dispatcher raises an
uncaught `AttributeError` (the single-parameter fallback reads
`tool_instance.parameters` on the absent local instance) instead of
returning an observation; the failure escapes the recovery boundary. -/
theorem C9_remote_only_decode_failure_raises
    (name s : String) (mt : Json)
    (tool_instances : List (String × ToolEntity))
    (mcp_tool_instances : List (String × Json))
    (mcp_execute : String → Json → Except PyError (List Json))
    (local_invoke : ToolEntity → List (String × Json) → Except PyError (List ToolInvokeResponse))
    (h_local : tool_instances.lookup name = none)
    (h_mcp : mcp_tool_instances.lookup name = some mt)
    (h_loads : json_loads s = none) :
    handle_invoke_action ⟨name, Json.str s⟩ tool_instances mcp_tool_instances
        mcp_execute local_invoke =
      Except.error (PyError.attributeError
        "\x27NoneType\x27 object has no attribute \x27parameters\x27") := by
  simp [handle_invoke_action, h_local, h_mcp, decode_tool_call_args, h_loads]

/-- Witness for C9: remote-only tool `r`, input `not json`. -/
theorem C9_witness :
    handle_invoke_action ⟨"r", Json.str "not json"⟩ ([] : List (String × ToolEntity))
        [("r", Json.obj [])] (fun _ _ => Except.ok []) (fun _ _ => Except.ok []) =
      Except.error (PyError.attributeError
        "\x27NoneType\x27 object has no attribute \x27parameters\x27") :=
  C9_remote_only_decode_failure_raises "r" "not json" (Json.obj []) [] [("r", Json.obj [])]
    (fun _ _ => Except.ok []) (fun _ _ => Except.ok []) rfl rfl rfl

/-- C4: every exception raised while executing a resolved tool — on the
local path or on the remote path — is caught inside the dispatcher and
converted into the observation `tool invoke error: <message>`, and the
dispatcher returns normally. -/
theorem C4_tool_invoke_error_caught
    (name : String) (d : List (String × Json)) (e : PyError)
    (ti : ToolEntity) (mt : Json)
    (tool_instances : List (String × ToolEntity))
    (mcp_tool_instances : List (String × Json))
    (mcp_execute : String → Json → Except PyError (List Json))
    (local_invoke : ToolEntity → List (String × Json) → Except PyError (List ToolInvokeResponse)) :
    (tool_instances.lookup name = some ti →
      mcp_tool_instances.lookup name = none →
      ∃ p, handle_invoke_action ⟨name, Json.obj d⟩ tool_instances mcp_tool_instances
          mcp_execute (fun _ _ => Except.error e) =
        Except.ok (Json.str ("tool invoke error: " ++ err_str e), p)) ∧
    (mcp_tool_instances.lookup name = some mt →
      handle_invoke_action ⟨name, Json.obj d⟩ tool_instances mcp_tool_instances
          (fun _ _ => Except.error e) local_invoke =
        Except.ok (Json.str ("tool invoke error: " ++ err_str e), Json.obj d)) := by
  constructor
  · intro h_local h_mcp
    obtain ⟨m, hm⟩ : ∃ m, py_dict_merge ti.runtime_parameters (Json.obj d) = Except.ok m :=
      ⟨_, rfl⟩
    exact ⟨Json.obj m, by
      simp [handle_invoke_action, h_local, h_mcp, decode_tool_call_args, hm]⟩
  · intro h_mcp
    simp [handle_invoke_action, h_mcp, decode_tool_call_args, except_bind_error]

/-- Witness for C4: a failing local executor and a failing remote
executor both fold into `tool invoke error` observations. -/
theorem C4_witness :
    (∃ p, handle_invoke_action ⟨"t", Json.obj []⟩
        [("t", { name := "t", provider := "p", parameters := [],
                 runtime_parameters := [("k", Json.num 1)] })]
        ([] : List (String × Json))
        (fun _ _ => Except.ok [])
        (fun _ _ => Except.error (PyError.valueError "boom")) =
      Except.ok (Json.str "tool invoke error: boom", p)) ∧
    handle_invoke_action ⟨"r", Json.obj []⟩ ([] : List (String × ToolEntity))
        [("r", Json.obj [])]
        (fun _ _ => Except.error (PyError.valueError "net down"))
        (fun _ _ => Except.ok []) =
      Except.ok (Json.str "tool invoke error: net down", Json.obj []) := by
  have h := C4_tool_invoke_error_caught "t" [] (PyError.valueError "boom")
    { name := "t", provider := "p", parameters := [],
      runtime_parameters := [("k", Json.num 1)] } Json.null
    [("t", { name := "t", provider := "p", parameters := [],
             runtime_parameters := [("k", Json.num 1)] })] []
    (fun _ _ => Except.ok []) (fun _ _ => Except.error (PyError.valueError "boom"))
  have h2 := C4_tool_invoke_error_caught "r" [] (PyError.valueError "net down")
    { name := "t", provider := "p", parameters := [], runtime_parameters := [] } (Json.obj [])
    [] [("r", Json.obj [])]
    (fun _ _ => Except.error (PyError.valueError "net down")) (fun _ _ => Except.ok [])
  exact ⟨h.1 rfl rfl, h2.2 rfl⟩

/-- C5: when the action input is a string that fails to decode as JSON
and the target tool is local, the dispatcher applies the
single-parameter heuristic: exactly one LLM-facing parameter `p` coerces
to the mapping with `p` bound to the raw text; zero such parameters
coerce to the empty mapping; more than one raises a `ValueError` that is
not swallowed into an observation. -/
theorem C5_argument_coercion
    (name s : String) (ti : ToolEntity)
    (tool_instances : List (String × ToolEntity))
    (mcp_tool_instances : List (String × Json))
    (mcp_execute : String → Json → Except PyError (List Json))
    (responses : List ToolInvokeResponse)
    (h_loads : json_loads s = none)
    (h_local : tool_instances.lookup name = some ti)
    (h_mcp : mcp_tool_instances.lookup name = none)
    (h_rt : ti.runtime_parameters = []) :
    (∀ p, (ti.parameters.filter
          (fun param => param.form == ToolParameterForm.llm)).map ToolParam.name = [p] →
        handle_invoke_action ⟨name, Json.str s⟩ tool_instances mcp_tool_instances
            mcp_execute (fun _ _ => Except.ok responses) =
          Except.ok (Json.str (fold_tool_responses responses),
            Json.obj [(p, Json.str s)])) ∧
    ((ti.parameters.filter
          (fun param => param.form == ToolParameterForm.llm)).map ToolParam.name = [] →
        handle_invoke_action ⟨name, Json.str s⟩ tool_instances mcp_tool_instances
            mcp_execute (fun _ _ => Except.ok responses) =
          Except.ok (Json.str (fold_tool_responses responses), Json.obj [])) ∧
    (((ti.parameters.filter
          (fun param => param.form == ToolParameterForm.llm)).map ToolParam.name).length > 1 →
        handle_invoke_action ⟨name, Json.str s⟩ tool_instances mcp_tool_instances
            mcp_execute (fun _ _ => Except.ok responses) =
          Except.error (PyError.valueError "tool call args is not a valid json string")) := by
  refine ⟨?_, ?_, ?_⟩
  · intro p hp
    simp [handle_invoke_action, h_local, h_mcp, decode_tool_call_args, h_loads, hp,
      py_dict_merge, h_rt]
  · intro hp
    simp [handle_invoke_action, h_local, h_mcp, decode_tool_call_args, h_loads, hp,
      py_dict_merge, h_rt]
  · intro hp
    rw [List.length_map] at hp
    simp [handle_invoke_action, h_local, h_mcp, decode_tool_call_args, h_loads, hp]

/-- Witness for C5: raw text `not json` against a one-parameter tool, a
zero-parameter tool, and a two-parameter tool. -/
theorem C5_witness :
    handle_invoke_action ⟨"t", Json.str "not json"⟩
        [("t", { name := "t", provider := "p",
                 parameters := [{ name := "x", form := ToolParameterForm.llm }],
                 runtime_parameters := [] })] []
        (fun _ _ => Except.ok [])
        (fun _ _ => Except.ok [ToolInvokeResponse.text "ok"]) =
      Except.ok (Json.str "ok", Json.obj [("x", Json.str "not json")]) ∧
    handle_invoke_action ⟨"t", Json.str "not json"⟩
        [("t", { name := "t", provider := "p", parameters := [], runtime_parameters := [] })] []
        (fun _ _ => Except.ok [])
        (fun _ _ => Except.ok [ToolInvokeResponse.text "ok"]) =
      Except.ok (Json.str "ok", Json.obj []) ∧
    handle_invoke_action ⟨"t", Json.str "not json"⟩
        [("t", { name := "t", provider := "p",
                 parameters := [{ name := "x", form := ToolParameterForm.llm },
                                { name := "y", form := ToolParameterForm.llm }],
                 runtime_parameters := [] })] []
        (fun _ _ => Except.ok [])
        (fun _ _ => Except.ok [ToolInvokeResponse.text "ok"]) =
      Except.error (PyError.valueError "tool call args is not a valid json string") := by
  refine ⟨?_, ?_, ?_⟩
  · exact (C5_argument_coercion "t" "not json"
      { name := "t", provider := "p",
        parameters := [{ name := "x", form := ToolParameterForm.llm }],
        runtime_parameters := [] }
      [("t", { name := "t", provider := "p",
               parameters := [{ name := "x", form := ToolParameterForm.llm }],
               runtime_parameters := [] })] []
      (fun _ _ => Except.ok []) [ToolInvokeResponse.text "ok"]
      rfl rfl rfl rfl).1 "x" rfl
  · exact (C5_argument_coercion "t" "not json"
      { name := "t", provider := "p", parameters := [], runtime_parameters := [] }
      [("t", { name := "t", provider := "p", parameters := [], runtime_parameters := [] })] []
      (fun _ _ => Except.ok []) [ToolInvokeResponse.text "ok"]
      rfl rfl rfl rfl).2.1 rfl
  · exact (C5_argument_coercion "t" "not json"
      { name := "t", provider := "p",
        parameters := [{ name := "x", form := ToolParameterForm.llm },
                       { name := "y", form := ToolParameterForm.llm }],
        runtime_parameters := [] }
      [("t", { name := "t", provider := "p",
               parameters := [{ name := "x", form := ToolParameterForm.llm },
                              { name := "y", form := ToolParameterForm.llm }],
               runtime_parameters := [] })] []
      (fun _ _ => Except.ok []) [ToolInvokeResponse.text "ok"]
      rfl rfl rfl rfl).2.2 (by decide)

/-- C7: normalization of a remote-protocol tool result — a single `text`
item yields its text verbatim, a single `resource` item is JSON-rendered
from its nested resource payload, any other single item is JSON-rendered
whole, and a list of two or more items is JSON-rendered as the full
list. -/
theorem C7_mcp_result_normalization :
    (∀ (item tv : Json), json_get_item item "type" = Except.ok (Json.str "text") →
        json_get_item item "text" = Except.ok tv →
        normalize_mcp_content [item] = Except.ok tv) ∧
    (∀ (item r : Json), json_get_item item "type" = Except.ok (Json.str "resource") →
        json_get_item item "resource" = Except.ok r →
        normalize_mcp_content [item] = Except.ok (Json.str (json_dumps r))) ∧
    (∀ (item ty : Json), json_get_item item "type" = Except.ok ty →
        ty ≠ Json.str "text" → ty ≠ Json.str "resource" →
        normalize_mcp_content [item] = Except.ok (Json.str (json_dumps item))) ∧
    (∀ content : List Json, 2 ≤ content.length →
        normalize_mcp_content content = Except.ok (Json.str (json_dumps (Json.arr content)))) := by
  refine ⟨?_, ?_, ?_, ?_⟩
  · intro item tv hty htx
    simp [normalize_mcp_content, hty, htx, except_bind_ok, except_pure]
  · intro item r hty hr
    simp [normalize_mcp_content, hty, hr, except_bind_ok, except_pure]
  · intro item ty hty hne_text hne_res
    match ty with
    | Json.str t =>
        have ht : t ≠ "text" := fun h => hne_text (by simp [h])
        have hr : t ≠ "resource" := fun h => hne_res (by simp [h])
        by_cases hi : t = "image"
        · simp [normalize_mcp_content, hty, ht, hi, except_bind_ok, except_pure]
        · by_cases hv : t = "video"
          · simp [normalize_mcp_content, hty, ht, hv, except_bind_ok, except_pure]
          · simp [normalize_mcp_content, hty, ht, hr, hi, hv, except_bind_ok, except_pure]
    | Json.null => simp [normalize_mcp_content, hty, except_bind_ok, except_pure]
    | Json.bool b => simp [normalize_mcp_content, hty, except_bind_ok, except_pure]
    | Json.num n => simp [normalize_mcp_content, hty, except_bind_ok, except_pure]
    | Json.arr xs => simp [normalize_mcp_content, hty, except_bind_ok, except_pure]
    | Json.obj fs => simp [normalize_mcp_content, hty, except_bind_ok, except_pure]
  · intro content hlen
    match content with
    | [] => simp at hlen
    | [_] => simp at hlen
    | a :: b :: rest => simp [normalize_mcp_content, except_pure]

/-- Witness for C7 at the examples of the claim: a single text item
yields `42`; a two-item list is JSON-rendered whole; a single resource
item renders its nested payload; a single image item renders whole. -/
theorem C7_witness :
    normalize_mcp_content [Json.obj [("type", Json.str "text"), ("text", Json.str "42")]] =
      Except.ok (Json.str "42") ∧
    normalize_mcp_content
        [Json.obj [("type", Json.str "resource"),
                   ("resource", Json.obj [("uri", Json.str "u")])]] =
      Except.ok (Json.str "\x7b\"uri\": \"u\"\x7d") ∧
    normalize_mcp_content [Json.obj [("type", Json.str "image"), ("data", Json.str "zz")]] =
      Except.ok (Json.str "\x7b\"type\": \"image\", \"data\": \"zz\"\x7d") ∧
    normalize_mcp_content [Json.str "a", Json.str "b"] =
      Except.ok (Json.str "[\"a\", \"b\"]") := by
  refine ⟨?_, ?_, ?_, ?_⟩
  · exact C7_mcp_result_normalization.1
      (Json.obj [("type", Json.str "text"), ("text", Json.str "42")]) (Json.str "42") rfl rfl
  · exact C7_mcp_result_normalization.2.1
      (Json.obj [("type", Json.str "resource"), ("resource", Json.obj [("uri", Json.str "u")])])
      (Json.obj [("uri", Json.str "u")]) rfl rfl
  · exact C7_mcp_result_normalization.2.2.1
      (Json.obj [("type", Json.str "image"), ("data", Json.str "zz")]) (Json.str "image")
      rfl (by simp) (by simp)
  · exact C7_mcp_result_normalization.2.2.2 [Json.str "a", Json.str "b"] (by simp)

/-- C1 counterexample: an action whose name matches both registries is
executed against the remote (MCP) tool, not the local one — the
dispatcher returns the normalized remote result `REMOTE` even though the
local executor would have produced the observation `LOCAL`. -/
theorem C1_counterexample :
    handle_invoke_action ⟨"t", Json.obj []⟩
        [("t", { name := "t", provider := "p", parameters := [], runtime_parameters := [] })]
        [("t", Json.obj [("name", Json.str "t")])]
        (fun _ _ => Except.ok [Json.obj [("type", Json.str "text"), ("text", Json.str "REMOTE")]])
        (fun _ _ => Except.ok [ToolInvokeResponse.text "LOCAL"]) =
      Except.ok (Json.str "REMOTE", Json.obj []) ∧
    fold_tool_responses [ToolInvokeResponse.text "LOCAL"] = "LOCAL" ∧
    Json.str "REMOTE" ≠ Json.str "LOCAL" :=
  ⟨rfl, rfl, by simp⟩

/-- C1 amended: for every action whose name matches both a local tool and
a remote-protocol tool, the dispatcher executes the remote tool — its
result does not depend on the local executor and equals the normalized
output of the remote execution (the local tool only supplies the
parameter declarations used for argument coercion). -/
theorem C1_amended_remote_precedence
    (name : String) (args coerced : Json) (ti : ToolEntity) (mt : Json)
    (tool_instances : List (String × ToolEntity))
    (mcp_tool_instances : List (String × Json))
    (mcp_execute : String → Json → Except PyError (List Json))
    (local_invoke local_invoke' :
      ToolEntity → List (String × Json) → Except PyError (List ToolInvokeResponse))
    (h_local : tool_instances.lookup name = some ti)
    (h_mcp : mcp_tool_instances.lookup name = some mt)
    (h_decode : decode_tool_call_args (some ti) args = Except.ok coerced) :
    handle_invoke_action ⟨name, args⟩ tool_instances mcp_tool_instances
        mcp_execute local_invoke =
      handle_invoke_action ⟨name, args⟩ tool_instances mcp_tool_instances
        mcp_execute local_invoke' ∧
    handle_invoke_action ⟨name, args⟩ tool_instances mcp_tool_instances
        mcp_execute local_invoke =
      (match mcp_execute name coerced >>= normalize_mcp_content with
       | Except.ok result => Except.ok (result, coerced)
       | Except.error e =>
           Except.ok (Json.str ("tool invoke error: " ++ err_str e), coerced)) := by
  constructor
  · simp [handle_invoke_action, h_local, h_mcp, h_decode]
  · simp [handle_invoke_action, h_local, h_mcp, h_decode]

/-- Witness for C1 amended: with both registries matching `t`, swapping
the local executor does not change the result, which is the remote
normalization. -/
theorem C1_witness :
    handle_invoke_action ⟨"t", Json.obj []⟩
        [("t", { name := "t", provider := "p", parameters := [], runtime_parameters := [] })]
        [("t", Json.obj [("name", Json.str "t")])]
        (fun _ _ => Except.ok [Json.obj [("type", Json.str "text"), ("text", Json.str "rr")]])
        (fun _ _ => Except.ok [ToolInvokeResponse.text "l1"]) =
      handle_invoke_action ⟨"t", Json.obj []⟩
        [("t", { name := "t", provider := "p", parameters := [], runtime_parameters := [] })]
        [("t", Json.obj [("name", Json.str "t")])]
        (fun _ _ => Except.ok [Json.obj [("type", Json.str "text"), ("text", Json.str "rr")]])
        (fun _ _ => Except.ok [ToolInvokeResponse.text "l2"]) :=
  (C1_amended_remote_precedence "t" (Json.obj []) (Json.obj [])
    { name := "t", provider := "p", parameters := [], runtime_parameters := [] }
    (Json.obj [("name", Json.str "t")])
    [("t", { name := "t", provider := "p", parameters := [], runtime_parameters := [] })]
    [("t", Json.obj [("name", Json.str "t")])]
    (fun _ _ => Except.ok [Json.obj [("type", Json.str "text"), ("text", Json.str "rr")]])
    (fun _ _ => Except.ok [ToolInvokeResponse.text "l1"])
    (fun _ _ => Except.ok [ToolInvokeResponse.text "l2"])
    rfl rfl rfl).1

/-! ## Claims about the Reasoning Loop Controller -/

/-- Each executed round appends exactly one record to the trace. -/
theorem do_round_trace_length
    (model_oracle : Int → RoundModelOutput) (dispatch_oracle : Int → AgentAction → String)
    (m : Int) (st : LoopState) :
    (do_round model_oracle dispatch_oracle m st).trace.length = st.trace.length + 1 := by
  simp [do_round]

/-- The loop appends at most `fuel` records to the trace. -/
theorem loop_go_trace_length_le
    (model_oracle : Int → RoundModelOutput) (dispatch_oracle : Int → AgentAction → String)
    (m : Int) :
    ∀ (fuel : Nat) (st : LoopState),
      (loop_go model_oracle dispatch_oracle m fuel st).trace.length ≤ st.trace.length + fuel := by
  intro fuel
  induction fuel with
  | zero => intro st; simp [loop_go]
  | succ n ih =>
      intro st
      rw [loop_go]
      split
      · calc (loop_go model_oracle dispatch_oracle m n
                (do_round model_oracle dispatch_oracle m st)).trace.length ≤
              (do_round model_oracle dispatch_oracle m st).trace.length + n := ih _
          _ = st.trace.length + 1 + n := by rw [do_round_trace_length]
          _ ≤ st.trace.length + (n + 1) := by omega
      · omega

/-- A record in the trace after one round is either an old record or the
new one, whose round number is the incoming `iteration_step` and whose
catalogue is the (possibly cleared) catalogue used for the prompt. -/
theorem do_round_trace_mem
    (model_oracle : Int → RoundModelOutput) (dispatch_oracle : Int → AgentAction → String)
    (m : Int) (st : LoopState) (r : RoundRecord)
    (h : r ∈ (do_round model_oracle dispatch_oracle m st).trace) :
    r ∈ st.trace ∨
      (r.iteration = st.iteration_step ∧
        r.tools_for_prompt =
          (if st.iteration_step = m then [] else st.prompt_messages_tools)) := by
  simp only [do_round, List.mem_append, List.mem_singleton] at h
  rcases h with h | h
  · exact Or.inl h
  · subst h
    exact Or.inr ⟨rfl, rfl⟩

/-- The loop preserves the invariant that every traced round whose number
equals the budget saw an empty tool catalogue. -/
theorem loop_go_last_round_tools
    (model_oracle : Int → RoundModelOutput) (dispatch_oracle : Int → AgentAction → String)
    (m : Int) :
    ∀ (fuel : Nat) (st : LoopState),
      (∀ r ∈ st.trace, r.iteration = m → r.tools_for_prompt = []) →
      ∀ r ∈ (loop_go model_oracle dispatch_oracle m fuel st).trace,
        r.iteration = m → r.tools_for_prompt = [] := by
  intro fuel
  induction fuel with
  | zero => intro st hbase; simpa [loop_go] using hbase
  | succ n ih =>
      intro st hbase
      rw [loop_go]
      split
      · refine ih _ ?_
        intro r hr hm
        rcases do_round_trace_mem model_oracle dispatch_oracle m st r hr with hin | ⟨hit, htools⟩
        · exact hbase r hin hm
        · rw [htools, if_pos (by rw [← hit]; exact hm)]
      · exact hbase

/-- C3 counterexample: with budget 1, a model output that parses to a
non-terminal action on round 1 (the last round) still gets its tool call
dispatched, even though the catalogue passed to prompt assembly on that
round is empty — refuting that no tool call is ever dispatched on round
N. -/
theorem C3_counterexample :
    ((run_invoke { query := "q", instruction := "i", maximum_iterations := 1 }
        (fun _ => { chunks := [ReactChunk.text "th",
                               ReactChunk.action ⟨"calc", Json.obj []⟩],
                    usage := none })
        (fun _ _ => "obs")
        [{ name := "calc", description := "d" }]).state.trace.map
      (fun r => (r.iteration, r.tools_for_prompt, r.dispatched))) = [(1, [], true)] := by
  rfl

/-- C3 amended: for every iteration budget N the loop executes at most
`N.toNat` rounds, and every round whose number equals N runs with an
empty tool catalogue passed to prompt assembly; however a tool call can
still be dispatched on round N (see the counterexample), so the original
never-dispatched part does not hold. -/
theorem C3_amended_round_bound_and_empty_catalogue
    (params : ReActParams)
    (model_oracle : Int → RoundModelOutput) (dispatch_oracle : Int → AgentAction → String)
    (tools0 : List PromptMessageTool) :
    (run_invoke params model_oracle dispatch_oracle tools0).state.trace.length ≤
      params.maximum_iterations.toNat ∧
    ∀ k : Nat,
      ((run_invoke params model_oracle dispatch_oracle tools0).state.trace.getD k
          default).iteration = params.maximum_iterations →
      ((run_invoke params model_oracle dispatch_oracle tools0).state.trace.getD k
          default).tools_for_prompt = [] := by
  constructor
  · have h := loop_go_trace_length_le model_oracle dispatch_oracle
      params.maximum_iterations params.maximum_iterations.toNat
      { iteration_step := 1, run_agent_state := true, final_answer := "",
        prompt_messages_tools := tools0, llm_usage := none, trace := [] }
    simpa [run_invoke] using h
  · intro k
    set trace :=
      (run_invoke params model_oracle dispatch_oracle tools0).state.trace with htrace
    by_cases hk : k < trace.length
    · have hmem : trace.getD k default ∈ trace := by
        rw [List.getD_eq_getElem _ _ hk]
        exact List.getElem_mem hk
      have hinv := loop_go_last_round_tools model_oracle dispatch_oracle
        params.maximum_iterations params.maximum_iterations.toNat
        { iteration_step := 1, run_agent_state := true, final_answer := "",
          prompt_messages_tools := tools0, llm_usage := none, trace := [] }
        (by intro r hr; simp at hr)
      intro hit
      exact hinv _ (by simpa [run_invoke] using hmem) hit
    · intro hit
      rw [List.getD_eq_default _ _ (Nat.le_of_not_lt hk)]
      rfl

/-- Witness for C3 amended at a concrete two-round run: the trace length
is within the budget 2, and the record of round 2 (index 1) has round
number 2 and an empty catalogue. -/
theorem C3_witness :
    (run_invoke { query := "q", instruction := "i", maximum_iterations := 2 }
        (fun _ => { chunks := [ReactChunk.text "th",
                               ReactChunk.action ⟨"calc", Json.obj []⟩],
                    usage := none })
        (fun _ _ => "obs")
        [{ name := "calc", description := "d" }]).state.trace.length ≤ (2 : Int).toNat ∧
    ((run_invoke { query := "q", instruction := "i", maximum_iterations := 2 }
        (fun _ => { chunks := [ReactChunk.text "th",
                               ReactChunk.action ⟨"calc", Json.obj []⟩],
                    usage := none })
        (fun _ _ => "obs")
        [{ name := "calc", description := "d" }]).state.trace.getD 1
          default).tools_for_prompt = [] := by
  have h := C3_amended_round_bound_and_empty_catalogue
    { query := "q", instruction := "i", maximum_iterations := 2 }
    (fun _ => { chunks := [ReactChunk.text "th",
                           ReactChunk.action ⟨"calc", Json.obj []⟩],
                usage := none })
    (fun _ _ => "obs")
    [{ name := "calc", description := "d" }]
  exact ⟨h.1, h.2 1 rfl⟩

/-- When the parsed output of the current round carries a non-terminal
action, the round leaves `final_answer` untouched. -/
theorem do_round_final_answer_nonterminal
    (model_oracle : Int → RoundModelOutput) (dispatch_oracle : Int → AgentAction → String)
    (m : Int) (st : LoopState) (a : AgentAction)
    (ha : (consume_react_chunks (model_oracle st.iteration_step).chunks).action = some a)
    (hn : py_lower a.action_name ≠ "final answer") :
    (do_round model_oracle dispatch_oracle m st).final_answer = st.final_answer := by
  simp [do_round, ha, hn]

/-- If every round parses to a non-terminal action, the loop never
assigns `final_answer`. -/
theorem loop_go_keeps_final_answer
    (model_oracle : Int → RoundModelOutput) (dispatch_oracle : Int → AgentAction → String)
    (m : Int)
    (H : ∀ i : Int, ∃ a,
        (consume_react_chunks (model_oracle i).chunks).action = some a ∧
          py_lower a.action_name ≠ "final answer") :
    ∀ (fuel : Nat) (st : LoopState),
      (loop_go model_oracle dispatch_oracle m fuel st).final_answer = st.final_answer := by
  intro fuel
  induction fuel with
  | zero => intro st; simp [loop_go]
  | succ n ih =>
      intro st
      rw [loop_go]
      split
      · obtain ⟨a, ha, hn⟩ := H st.iteration_step
        rw [ih, do_round_final_answer_nonterminal model_oracle dispatch_oracle m st a ha hn]
      · rfl

/-- C2 counterexample: with budget 3 and a model that emits a tool-call
action in every round, the invocation emits the empty string as its final
answer, while every traced round (in particular the last) has the thought
`thinking about it` — refuting that the final answer equals the last
round's thought. -/
theorem C2_counterexample :
    (run_invoke { query := "q", instruction := "i", maximum_iterations := 3 }
        (fun _ => { chunks := [ReactChunk.text "thinking about it",
                               ReactChunk.action ⟨"calc", Json.obj []⟩],
                    usage := none })
        (fun _ _ => "4")
        [{ name := "calc", description := "d" }]).text_message = "" ∧
    ((run_invoke { query := "q", instruction := "i", maximum_iterations := 3 }
        (fun _ => { chunks := [ReactChunk.text "thinking about it",
                               ReactChunk.action ⟨"calc", Json.obj []⟩],
                    usage := none })
        (fun _ _ => "4")
        [{ name := "calc", description := "d" }]).state.trace.map
      (fun r => r.unit.thought)) =
      ["thinking about it", "thinking about it", "thinking about it"] ∧
    ("" : String) ≠ "thinking about it" := by
  refine ⟨rfl, rfl, by decide⟩

/-- C2 amended: if the model never emits a terminal unit (every round
parses to a non-terminal action), the invocation still ends normally, but
the emitted final answer is the empty string — the initial value of
`final_answer`, which no tool-call round ever assigns — rather than the
last round's thought. -/
theorem C2_amended_empty_final_answer
    (params : ReActParams)
    (model_oracle : Int → RoundModelOutput) (dispatch_oracle : Int → AgentAction → String)
    (tools0 : List PromptMessageTool)
    (H : ∀ i : Int, ∃ a,
        (consume_react_chunks (model_oracle i).chunks).action = some a ∧
          py_lower a.action_name ≠ "final answer") :
    (run_invoke params model_oracle dispatch_oracle tools0).text_message = "" := by
  have h := loop_go_keeps_final_answer model_oracle dispatch_oracle
    params.maximum_iterations H params.maximum_iterations.toNat
    { iteration_step := 1, run_agent_state := true, final_answer := "",
      prompt_messages_tools := tools0, llm_usage := none, trace := [] }
  simpa [run_invoke] using h

/-- Witness for C2 amended: the concrete always-tool-calling model of the
counterexample satisfies the non-terminal hypothesis, and the final
answer is the empty string. -/
theorem C2_witness :
    (run_invoke { query := "q", instruction := "i", maximum_iterations := 3 }
        (fun _ => { chunks := [ReactChunk.text "thinking about it",
                               ReactChunk.action ⟨"calc", Json.obj []⟩],
                    usage := none })
        (fun _ _ => "4")
        [{ name := "calc", description := "d" }]).text_message = "" :=
  C2_amended_empty_final_answer
    { query := "q", instruction := "i", maximum_iterations := 3 }
    (fun _ => { chunks := [ReactChunk.text "thinking about it",
                           ReactChunk.action ⟨"calc", Json.obj []⟩],
                usage := none })
    (fun _ _ => "4")
    [{ name := "calc", description := "d" }]
    (fun _ => ⟨⟨"calc", Json.obj []⟩, rfl, by decide⟩)

/-- C8: a round is treated as terminal — the loop stops — exactly when no
action was parsed from the model output or the parsed action name,
lowercased, equals `final answer`; in the first case the thought becomes
the final answer, in the second the rendered action input does, and a
state with the loop flag cleared is a fixed point of the loop. -/
theorem C8_terminal_unit_iff
    (model_oracle : Int → RoundModelOutput) (dispatch_oracle : Int → AgentAction → String)
    (m : Int) (st : LoopState) :
    ((do_round model_oracle dispatch_oracle m st).run_agent_state = false ↔
      (consume_react_chunks (model_oracle st.iteration_step).chunks).action = none ∨
        ∃ a, (consume_react_chunks (model_oracle st.iteration_step).chunks).action = some a ∧
          py_lower a.action_name = "final answer") ∧
    ((consume_react_chunks (model_oracle st.iteration_step).chunks).action = none →
      (do_round model_oracle dispatch_oracle m st).final_answer =
        (consume_react_chunks (model_oracle st.iteration_step).chunks).thought) ∧
    (∀ a, (consume_react_chunks (model_oracle st.iteration_step).chunks).action = some a →
      py_lower a.action_name = "final answer" →
      (do_round model_oracle dispatch_oracle m st).final_answer =
        final_answer_of_input a.action_input) ∧
    ((do_round model_oracle dispatch_oracle m st).run_agent_state = false →
      ∀ fuel : Nat,
        loop_go model_oracle dispatch_oracle m fuel
          (do_round model_oracle dispatch_oracle m st) =
        do_round model_oracle dispatch_oracle m st) := by
  have hfix : ∀ s : LoopState, s.run_agent_state = false →
      ∀ fuel : Nat, loop_go model_oracle dispatch_oracle m fuel s = s := by
    intro s hs fuel
    cases fuel with
    | zero => rfl
    | succ n => rw [loop_go]; simp [hs]
  refine ⟨?_, ?_, ?_, fun h fuel => hfix _ h fuel⟩
  · cases ha : (consume_react_chunks (model_oracle st.iteration_step).chunks).action with
    | none => simp [do_round, ha]
    | some a =>
        by_cases hf : py_lower a.action_name = "final answer"
        · simp [do_round, ha, hf]
        · simp [do_round, ha, hf]
  · intro ha
    simp [do_round, ha]
  · intro a ha hf
    simp [do_round, ha, hf]

/-- Witness for C8: a round with no parsed action assigns the thought as
the final answer; a round whose parsed action is named `Final Answer`
assigns the rendered input. -/
theorem C8_witness :
    (do_round (fun _ => { chunks := [ReactChunk.text "hello"], usage := none })
        (fun _ _ => "") 3
        { iteration_step := 1, run_agent_state := true, final_answer := "",
          prompt_messages_tools := [], llm_usage := none, trace := [] }).final_answer =
      "hello" ∧
    (do_round
        (fun _ => { chunks := [ReactChunk.action ⟨"Final Answer", Json.str "42"⟩],
                    usage := none })
        (fun _ _ => "") 3
        { iteration_step := 1, run_agent_state := true, final_answer := "",
          prompt_messages_tools := [], llm_usage := none, trace := [] }).final_answer =
      "42" := by
  constructor
  · have h := (C8_terminal_unit_iff
      (fun _ => { chunks := [ReactChunk.text "hello"], usage := none })
      (fun _ _ => "") 3
      { iteration_step := 1, run_agent_state := true, final_answer := "",
        prompt_messages_tools := [], llm_usage := none, trace := [] }).2.1 rfl
    exact h.trans rfl
  · have h := (C8_terminal_unit_iff
      (fun _ => { chunks := [ReactChunk.action ⟨"Final Answer", Json.str "42"⟩],
                  usage := none })
      (fun _ _ => "") 3
      { iteration_step := 1, run_agent_state := true, final_answer := "",
        prompt_messages_tools := [], llm_usage := none, trace := [] }).2.2.1
      ⟨"Final Answer", Json.str "42"⟩ rfl (by decide)
    exact h.trans rfl

/-- C10: a non-positive iteration budget is accepted (the `ReActParams`
field is a plain integer with no positivity constraint); the loop then
executes zero rounds and the invocation emits the empty string as the
final answer together with a zero-valued usage summary, without
raising. -/
theorem C10_nonpositive_budget
    (params : ReActParams)
    (model_oracle : Int → RoundModelOutput) (dispatch_oracle : Int → AgentAction → String)
    (tools0 : List PromptMessageTool)
    (h : params.maximum_iterations ≤ 0) :
    run_invoke params model_oracle dispatch_oracle tools0 =
      { state := { iteration_step := 1, run_agent_state := true, final_answer := "",
                   prompt_messages_tools := tools0, llm_usage := none, trace := [] },
        text_message := "",
        execution_metadata := (0, "", 0) } := by
  have h0 : params.maximum_iterations.toNat = 0 := Int.toNat_of_nonpos h
  simp [run_invoke, h0, loop_go, usage_metadata]

/-- Witness for C10 at the concrete budget -2. -/
theorem C10_witness :
    run_invoke { query := "q", instruction := "i", maximum_iterations := -2 }
        (fun _ => { chunks := [ReactChunk.text "x"], usage := none })
        (fun _ _ => "") [] =
      { state := { iteration_step := 1, run_agent_state := true, final_answer := "",
                   prompt_messages_tools := [], llm_usage := none, trace := [] },
        text_message := "",
        execution_metadata := (0, "", 0) } :=
  C10_nonpositive_budget { query := "q", instruction := "i", maximum_iterations := -2 }
    (fun _ => { chunks := [ReactChunk.text "x"], usage := none })
    (fun _ _ => "") [] (by decide)

end ReActSpec
